import Mathlib

/-!
Verification development for the `dpgo_ros` coordination layer
(`src/PGOAgentROS.cpp`, `include/dpgo_ros/PGOAgentROS.h`).

The C++ node wraps an external `PGOAgent` optimizer.  We shallowly embed the
protocol logic of `PGOAgentROS.cpp`: service handlers and callbacks become
pure Lean functions from their inputs (message fields and an explicit
environment standing for the service replies and optimizer results) to the
observable effects they produce (return values, emitted log/publish events,
and the `updateNeighborPose` calls handed to the optimizer).  Matrix payloads
are abstracted to `Nat` identifiers: the protocol never inspects them.
Out-of-bounds vector reads are modelled by returning `none`.
-/

namespace DpgoRos

/-- A `dpgo_ros::LiftedPose` message as consumed by the coordination layer:
`cluster_id`, `robot_id`, `pose_id` and an abstract matrix payload. -/
structure LiftedPose where
  cluster_id : Nat
  robot_id : Nat
  pose_id : Nat
  pose : Nat
  deriving DecidableEq, Repr

/-- A `QueryPoses` service request: addressed robot and requested pose ids. -/
structure QueryPosesRequest where
  robot_id : Nat
  pose_ids : List Nat
  deriving DecidableEq, Repr

/-- Outcome of a ROS service interaction as seen by the caller:
`waitForService` timed out, `ros::service::call` returned false, or the
service replied with a pose list. -/
inductive ServiceOutcome where
  | unavailable : ServiceOutcome
  | callFailed : ServiceOutcome
  | replied : List LiftedPose → ServiceOutcome
  deriving DecidableEq, Repr

/-- One `updateNeighborPose(cluster_id, robot_id, pose_id, Xnbr)` call handed
to the optimizer. -/
structure NeighborUpdate where
  cluster_id : Nat
  robot_id : Nat
  pose_id : Nat
  pose : Nat
  deriving DecidableEq, Repr

/-- Embedding of `PGOAgentROS::requestPublicPosesFromAgent`
(`src/PGOAgentROS.cpp:99-138`).  Input: the requested pose indices
(`getNeighborPublicPoses`) and the service outcome.  Output: `none` models the
out-of-bounds read of `srv.response.poses[0]` on an empty response; otherwise
`some (returnValue, updateNeighborPose calls made)`.  The code returns `false`
with no updates when the service is missing, the call fails, the reply size
mismatches the request, or the first pose's `cluster_id` is nonzero;
otherwise it forwards every pose in the reply to `updateNeighborPose`. -/
def requestPublicPosesFromAgent (poseIndices : List Nat)
    (outcome : ServiceOutcome) : Option (Bool × List NeighborUpdate) :=
  match outcome with
  | .unavailable => some (false, [])
  | .callFailed => some (false, [])
  | .replied poses =>
    if poses.length ≠ poseIndices.length then
      some (false, [])
    else
      match poses.get? 0 with
      | none => none
      | some p0 =>
        if p0.cluster_id ≠ 0 then
          some (false, [])
        else
          some (true, poses.map fun p =>
            ⟨p.cluster_id, p.robot_id, p.pose_id, p.pose⟩)

/-- Embedding of the pose-building loop of `PGOAgentROS::queryPosesCallback`
(`src/PGOAgentROS.cpp:258-268`): for each requested index, look up the local
pose estimate (`getXComponent`); a missing index fails the whole service call
(`none`); otherwise each reply pose is stamped with the agent's single
`getCluster()` value and `getID()`. -/
def buildPoses (cluster selfId : Nat) (getX : Nat → Option Nat) :
    List Nat → Option (List LiftedPose)
  | [] => some []
  | idx :: rest =>
    match getX idx with
    | none => none
    | some x =>
      match buildPoses cluster selfId getX rest with
      | none => none
      | some ps => some (⟨cluster, selfId, idx, x⟩ :: ps)

/-- Embedding of `PGOAgentROS::queryPosesCallback`
(`src/PGOAgentROS.cpp:251-271`): a query addressed to the wrong agent is
rejected (`none`, service returns false with no state touched); otherwise the
reply poses are built from the local estimates. -/
def queryPosesCallback (selfId cluster : Nat) (getX : Nat → Option Nat)
    (req : QueryPosesRequest) : Option (List LiftedPose) :=
  if req.robot_id ≠ selfId then none
  else buildPoses cluster selfId getX req.pose_ids

/-- Embedding of `PGOAgentROS::queryLiftingMatrixCallback`
(`src/PGOAgentROS.cpp:234-249`): the service succeeds (and returns the lifting
matrix) only when this agent is robot 0 and the request asks for robot 0;
otherwise it fails without touching any state. -/
def queryLiftingMatrixCallback (selfId reqRobotId : Nat) : Bool :=
  if selfId ≠ 0 then false
  else if reqRobotId ≠ 0 then false
  else true

/-- A relative SE measurement as produced by `RelativeMeasurementFromMsg`:
robot and pose indices of the two endpoints (payload abstracted away). -/
structure RelativeSEMeasurement where
  r1 : Nat
  p1 : Nat
  r2 : Nat
  p2 : Nat
  deriving DecidableEq, Repr

/-- Edge classification predicate of `poseGraphCallback`: odometry is a
same-robot edge between consecutive poses (`m.r1 == m.r2 && m.p1 + 1 == m.p2`). -/
def isOdometry (m : RelativeSEMeasurement) : Bool :=
  m.r1 = m.r2 && m.p1 + 1 = m.p2

/-- Private loop closure: same robot, non-consecutive poses. -/
def isPrivateLoopClosure (m : RelativeSEMeasurement) : Bool :=
  m.r1 = m.r2 && ¬ (m.p1 + 1 = m.p2)

/-- Shared loop closure: endpoints owned by different robots. -/
def isSharedLoopClosure (m : RelativeSEMeasurement) : Bool :=
  ¬ (m.r1 = m.r2)

/-- `poseGraphCallback` logs an error for a measurement with neither endpoint
owned by this agent (`m.r1 != getID() && m.r2 != getID()`,
`src/PGOAgentROS.cpp:208-211`). -/
def isIrrelevant (selfId : Nat) (m : RelativeSEMeasurement) : Bool :=
  ¬ (m.r1 = selfId) && ¬ (m.r2 = selfId)

/-- Embedding of the classification loop of `PGOAgentROS::poseGraphCallback`
(`src/PGOAgentROS.cpp:205-221`): each edge is pushed onto exactly one of the
`odometry`, `privateLoopClosures`, `sharedLoopClosures` vectors, in input
order. -/
def classifyEdges : List RelativeSEMeasurement →
    List RelativeSEMeasurement × List RelativeSEMeasurement ×
      List RelativeSEMeasurement
  | [] => ([], [], [])
  | m :: rest =>
    let (odo, priv, shared) := classifyEdges rest
    if m.r1 = m.r2 then
      if m.p1 + 1 = m.p2 then (m :: odo, priv, shared)
      else (odo, m :: priv, shared)
    else (odo, priv, m :: shared)

/-- Embedding of `PGOAgentROS::poseGraphCallback` up to the `setPoseGraph`
call (`src/PGOAgentROS.cpp:198-222`): returns the number of
irrelevant-measurement error logs emitted and the three measurement lists
passed to `setPoseGraph`.  Note the loop logs an irrelevant measurement but
still classifies and keeps it. -/
def poseGraphCallback (selfId : Nat) (edges : List RelativeSEMeasurement) :
    Nat × (List RelativeSEMeasurement × List RelativeSEMeasurement ×
      List RelativeSEMeasurement) :=
  ((edges.filter (isIrrelevant selfId)).length, classifyEdges edges)

theorem classifyEdges_eq_filter (edges : List RelativeSEMeasurement) :
    classifyEdges edges =
      (edges.filter isOdometry, edges.filter isPrivateLoopClosure,
        edges.filter isSharedLoopClosure) := by
  induction edges with
  | nil => rfl
  | cons m rest ih =>
    simp only [classifyEdges, ih, List.filter_cons, isOdometry,
      isPrivateLoopClosure, isSharedLoopClosure]
    by_cases h1 : m.r1 = m.r2 <;> by_cases h2 : m.p1 + 1 = m.p2 <;>
      simp [h1, h2]

theorem length_filter_classification (edges : List RelativeSEMeasurement) :
    (edges.filter isOdometry).length +
      (edges.filter isPrivateLoopClosure).length +
      (edges.filter isSharedLoopClosure).length = edges.length := by
  induction edges with
  | nil => rfl
  | cons m rest ih =>
    simp only [List.filter_cons, isOdometry, isPrivateLoopClosure,
      isSharedLoopClosure]
    by_cases h1 : m.r1 = m.r2 <;> by_cases h2 : m.p1 + 1 = m.p2 <;>
      simp [h1, h2] <;> omega

/-- C4: each received pose-graph edge is classified before `setPoseGraph`
exactly as: same robot and consecutive indices → odometry; same robot,
non-consecutive → private loop closure; different robots → shared loop
closure; and every edge lands in exactly one of the three lists (the three
output lengths sum to the input length). -/
theorem C4_measurement_classification (selfId : Nat)
    (edges : List RelativeSEMeasurement) (m : RelativeSEMeasurement) :
    (m ∈ (poseGraphCallback selfId edges).2.1 ↔
      m ∈ edges ∧ m.r1 = m.r2 ∧ m.p1 + 1 = m.p2) ∧
    (m ∈ (poseGraphCallback selfId edges).2.2.1 ↔
      m ∈ edges ∧ m.r1 = m.r2 ∧ m.p1 + 1 ≠ m.p2) ∧
    (m ∈ (poseGraphCallback selfId edges).2.2.2 ↔
      m ∈ edges ∧ m.r1 ≠ m.r2) ∧
    (poseGraphCallback selfId edges).2.1.length +
      (poseGraphCallback selfId edges).2.2.1.length +
      (poseGraphCallback selfId edges).2.2.2.length = edges.length := by
  refine ⟨?_, ?_, ?_, ?_⟩ <;>
    simp [poseGraphCallback, classifyEdges_eq_filter, List.mem_filter,
      isOdometry, isPrivateLoopClosure, isSharedLoopClosure,
      length_filter_classification, and_assoc]

/-- C1 counterexample: a reply whose first pose is in cluster 0 but whose
second pose carries `cluster_id = 1` passes the gate of
`requestPublicPosesFromAgent`, and the cluster-1 pose is handed to
`updateNeighborPose`: the code checks only `poses[0].cluster_id`, not each
pose. -/
theorem C1_counterexample :
    requestPublicPosesFromAgent [5, 6]
        (.replied [⟨0, 1, 5, 0⟩, ⟨1, 1, 6, 0⟩]) =
      some (true, [⟨0, 1, 5, 0⟩, ⟨1, 1, 6, 0⟩]) ∧
    (⟨1, 1, 6, 0⟩ : NeighborUpdate).cluster_id ≠ 0 := by
  decide

theorem buildPoses_cluster (cluster selfId : Nat) (getX : Nat → Option Nat) :
    ∀ (ids : List Nat) (poses : List LiftedPose),
      buildPoses cluster selfId getX ids = some poses →
      ∀ p ∈ poses, p.cluster_id = cluster := by
  intro ids
  induction ids with
  | nil =>
    intro poses h p hp
    simp only [buildPoses, Option.some.injEq] at h
    subst h
    simp at hp
  | cons idx rest ih =>
    intro poses h p hp
    simp only [buildPoses] at h
    cases hx : getX idx with
    | none => rw [hx] at h; exact absurd h (by simp)
    | some x =>
      rw [hx] at h
      cases hr : buildPoses cluster selfId getX rest with
      | none => rw [hr] at h; exact absurd h (by simp)
      | some ps =>
        rw [hr] at h
        simp only [Option.some.injEq] at h
        subst h
        rcases List.mem_cons.mp hp with h0 | h0
        · subst h0; rfl
        · exact ih ps hr p h0

theorem queryPosesCallback_cluster (selfId cluster : Nat)
    (getX : Nat → Option Nat) (req : QueryPosesRequest)
    (poses : List LiftedPose)
    (h : queryPosesCallback selfId cluster getX req = some poses) :
    ∀ p ∈ poses, p.cluster_id = cluster := by
  unfold queryPosesCallback at h
  by_cases hid : req.robot_id ≠ selfId
  · simp [hid] at h
  · rw [if_neg hid] at h
    exact buildPoses_cluster cluster selfId getX req.pose_ids poses h

/-- C1 (amended): `requestPublicPosesFromAgent` checks only the first pose's
`cluster_id`; but every response produced by `queryPosesCallback` stamps all
its poses with the responding agent's single cluster, and for such responses
a successful call never passes a pose with `cluster_id ≠ 0` to
`updateNeighborPose`. -/
theorem C1_cluster_gate_amended (selfId cluster : Nat)
    (getX : Nat → Option Nat) (req : QueryPosesRequest)
    (poses : List LiftedPose) (poseIndices : List Nat)
    (ups : List NeighborUpdate)
    (hq : queryPosesCallback selfId cluster getX req = some poses)
    (hr : requestPublicPosesFromAgent poseIndices (.replied poses) =
      some (true, ups)) :
    ∀ u ∈ ups, u.cluster_id = 0 := by
  have hcluster := queryPosesCallback_cluster selfId cluster getX req poses hq
  simp only [requestPublicPosesFromAgent] at hr
  by_cases hlen : poses.length ≠ poseIndices.length
  · simp [hlen] at hr
  · rw [if_neg hlen] at hr
    cases h0 : poses.get? 0 with
    | none => rw [h0] at hr; exact absurd hr (by simp)
    | some p0 =>
      rw [h0] at hr
      by_cases hc : p0.cluster_id = 0
      case neg => simp [hc] at hr
      case pos =>
        simp [hc] at hr
        intro u hu
        rw [← hr] at hu
        rcases List.mem_map.mp hu with ⟨p, hp, hpu⟩
        have hp0 : p0 ∈ poses := List.get?_mem h0
        have : p.cluster_id = cluster := hcluster p hp
        have : p.cluster_id = 0 := by
          rw [this, ← hcluster p0 hp0]
          omega
        rw [← hpu]
        exact this

theorem C1_cluster_gate_amended_witness :
    (⟨0, 1, 5, 7⟩ : NeighborUpdate).cluster_id = 0 :=
  C1_cluster_gate_amended 1 0 (fun _ => some 7) ⟨1, [5, 6]⟩
    [⟨0, 1, 5, 7⟩, ⟨0, 1, 6, 7⟩] [5, 6] [⟨0, 1, 5, 7⟩, ⟨0, 1, 6, 7⟩]
    rfl rfl ⟨0, 1, 5, 7⟩ (by decide)

/-- Embedding of `PGOAgentROS::publishTrajectory`
(`src/PGOAgentROS.cpp:140-174`): robot 0 takes its own pose 0 as global
anchor (the `getXComponent` return value is ignored) and proceeds; any other
robot queries robot 0 for pose 0, returning `false` when the service is
missing or the call fails, and otherwise reads `srv.response.poses[0]` with
no size check — `none` models that out-of-bounds read on an empty reply. -/
def publishTrajectory (selfId : Nat) (anchorOutcome : ServiceOutcome) :
    Option Bool :=
  if selfId = 0 then some true
  else
    match anchorOutcome with
    | .unavailable => some false
    | .callFailed => some false
    | .replied poses =>
      match poses.get? 0 with
      | none => none
      | some _ => some true

/-- C10: the guards before the `poses[0]` reads do not ensure a non-empty
reply — an empty request (a neighbor with zero public poses) passes the size
check of `requestPublicPosesFromAgent` and reaches the out-of-bounds read,
and a non-Leader `publishTrajectory` reaches it on an empty reply; under the
precondition that the reply holds at least one pose, both reads are in
bounds. -/
theorem C10_response_nonempty_precondition :
    requestPublicPosesFromAgent [] (.replied []) = none ∧
    publishTrajectory 1 (.replied []) = none ∧
    (∀ (poseIndices : List Nat) (poses : List LiftedPose), poses ≠ [] →
      requestPublicPosesFromAgent poseIndices (.replied poses) ≠ none) ∧
    (∀ (selfId : Nat) (poses : List LiftedPose), poses ≠ [] →
      publishTrajectory selfId (.replied poses) ≠ none) := by
  refine ⟨rfl, rfl, ?_, ?_⟩
  · intro poseIndices poses hne
    simp only [requestPublicPosesFromAgent]
    by_cases hlen : poses.length ≠ poseIndices.length
    · simp [hlen]
    · rw [if_neg hlen]
      cases poses with
      | nil => exact absurd rfl hne
      | cons p ps => by_cases hc : p.cluster_id = 0 <;> simp [hc]
  · intro selfId poses hne
    unfold publishTrajectory
    by_cases hid : selfId = 0
    · simp [hid]
    · rw [if_neg hid]
      cases poses with
      | nil => exact absurd rfl hne
      | cons p ps => simp

theorem C10_response_nonempty_precondition_witness :
    requestPublicPosesFromAgent [5] (.replied [⟨0, 1, 5, 0⟩]) ≠ none ∧
    publishTrajectory 1 (.replied [⟨0, 0, 0, 0⟩]) ≠ none :=
  ⟨C10_response_nonempty_precondition.2.2.1 [5] [⟨0, 1, 5, 0⟩] (by decide),
    C10_response_nonempty_precondition.2.2.2 1 [⟨0, 0, 0, 0⟩] (by decide)⟩

/-- C5 counterexample: agent 0 receives a measurement between robots 1 and 2
(neither endpoint its own).  `poseGraphCallback` logs one
irrelevant-measurement error but still classifies the edge and passes it to
`setPoseGraph` in the shared-loop-closure list — the offending message is
applied to state, not discarded. -/
theorem C5_counterexample :
    isIrrelevant 0 ⟨1, 0, 2, 0⟩ = true ∧
    poseGraphCallback 0 [⟨1, 0, 2, 0⟩] = (1, ([], [], [⟨1, 0, 2, 0⟩])) := by
  decide

/-- C5 (amended): a pose query addressed to the wrong agent and a
wrong-address lifting-matrix query fail without touching state; a reply whose
pose count mismatches the request is logged and dropped with no
`updateNeighborPose` call; but a measurement with neither endpoint owned by
this robot is only logged — it is still classified and passed to
`setPoseGraph`.  All handlers return normally on these paths. -/
theorem C5_protocol_violations_amended :
    (∀ (selfId cluster : Nat) (getX : Nat → Option Nat)
      (req : QueryPosesRequest), req.robot_id ≠ selfId →
        queryPosesCallback selfId cluster getX req = none) ∧
    (∀ selfId reqRobotId : Nat, selfId ≠ 0 ∨ reqRobotId ≠ 0 →
      queryLiftingMatrixCallback selfId reqRobotId = false) ∧
    (∀ (poseIndices : List Nat) (poses : List LiftedPose),
      poses.length ≠ poseIndices.length →
        requestPublicPosesFromAgent poseIndices (.replied poses) =
          some (false, [])) ∧
    (∀ (selfId : Nat) (edges : List RelativeSEMeasurement)
      (m : RelativeSEMeasurement), m ∈ edges →
        isIrrelevant selfId m = true →
        1 ≤ (poseGraphCallback selfId edges).1 ∧
          (m ∈ (poseGraphCallback selfId edges).2.1 ∨
            m ∈ (poseGraphCallback selfId edges).2.2.1 ∨
            m ∈ (poseGraphCallback selfId edges).2.2.2)) := by
  refine ⟨?_, ?_, ?_, ?_⟩
  · intro selfId cluster getX req h
    simp [queryPosesCallback, h]
  · intro selfId reqRobotId h
    unfold queryLiftingMatrixCallback
    rcases h with h | h
    · simp [h]
    · by_cases h0 : selfId ≠ 0 <;> simp [h0, h]
  · intro poseIndices poses h
    simp [requestPublicPosesFromAgent, h]
  · intro selfId edges m hm hirr
    constructor
    · have hmem : m ∈ edges.filter (isIrrelevant selfId) :=
        List.mem_filter.mpr ⟨hm, hirr⟩
      exact Nat.succ_le_of_lt (List.length_pos_of_mem hmem)
    · simp only [poseGraphCallback, classifyEdges_eq_filter, List.mem_filter,
        isOdometry, isPrivateLoopClosure, isSharedLoopClosure]
      by_cases h1 : m.r1 = m.r2 <;> by_cases h2 : m.p1 + 1 = m.p2 <;>
        simp [h1, h2, hm]

theorem C5_protocol_violations_amended_witness :
    queryPosesCallback 1 0 (fun _ => some 7) ⟨2, [0]⟩ = none ∧
    queryLiftingMatrixCallback 0 1 = false ∧
    requestPublicPosesFromAgent [5] (.replied []) = some (false, []) ∧
    (1 ≤ (poseGraphCallback 0 [⟨1, 0, 2, 0⟩]).1 ∧
      ((⟨1, 0, 2, 0⟩ : RelativeSEMeasurement) ∈
          (poseGraphCallback 0 [⟨1, 0, 2, 0⟩]).2.1 ∨
        (⟨1, 0, 2, 0⟩ : RelativeSEMeasurement) ∈
          (poseGraphCallback 0 [⟨1, 0, 2, 0⟩]).2.2.1 ∨
        (⟨1, 0, 2, 0⟩ : RelativeSEMeasurement) ∈
          (poseGraphCallback 0 [⟨1, 0, 2, 0⟩]).2.2.2)) :=
  ⟨C5_protocol_violations_amended.1 1 0 (fun _ => some 7) ⟨2, [0]⟩ (by decide),
    C5_protocol_violations_amended.2.1 0 1 (Or.inr (by decide)),
    C5_protocol_violations_amended.2.2.1 [5] [] (by decide),
    C5_protocol_violations_amended.2.2.2 0 [⟨1, 0, 2, 0⟩] ⟨1, 0, 2, 0⟩
      (by decide) (by decide)⟩

/-- The command kinds dispatched by `PGOAgentROS::commandCallback`
(`src/PGOAgentROS.cpp:176-196`); `INVALID` stands for any value hitting the
`default` branch. -/
inductive CommandKind where
  | INITIALIZE : CommandKind
  | TERMINATE : CommandKind
  | UPDATE : CommandKind
  | INVALID : CommandKind
  deriving DecidableEq, Repr

/-- A `dpgo_ros::Command` message: kind and addressed executing robot. -/
structure CommandMsg where
  command : CommandKind
  executing_robot : Nat
  deriving DecidableEq, Repr

/-- Observable effects of `update`/`commandCallback`: log lines, service
interactions, optimizer invocations and ROS publishes.  `publishStatus` and
`publishPublicPoses` are in the alphabet so their absence from every emitted
trace is expressible; this implementation never produces them. -/
inductive TraceEvent where
  | queryNeighborPoses : Nat → TraceEvent
  | applyNeighborUpdates : Nat → List NeighborUpdate → TraceEvent
  | warnNeighborUnavailable : Nat → TraceEvent
  | callOptimize : TraceEvent
  | infoObjectiveDecrease : TraceEvent
  | warnOptimizeSkipped : TraceEvent
  | callPublishTrajectory : TraceEvent
  | errPublishTrajectory : TraceEvent
  | errNoNeighbor : TraceEvent
  | publishCommand : CommandKind → Nat → TraceEvent
  | publishStatus : TraceEvent
  | publishPublicPoses : TraceEvent
  | errInitializeNotImplemented : TraceEvent
  | errTerminateNotImplemented : TraceEvent
  | errInvalidCommand : TraceEvent
  deriving DecidableEq, Repr

/-- Environment a single `PGOAgentROS::update` call runs against: the
neighbor set (`getNeighbors`), per-neighbor requested indices
(`getNeighborPublicPoses`) and service outcomes, the optimizer's success flag
(`ROPTResult.success`), the anchor-service outcome used by
`publishTrajectory`, and the result of `getRandomNeighbor` (`neighborChoice`
is the value the uninitialized variable holds when the lookup fails — the
code publishes it regardless). -/
structure UpdateEnv where
  neighbors : List Nat
  publicPoseIndices : Nat → List Nat
  poseService : Nat → ServiceOutcome
  optimizeSuccess : Bool
  anchorService : ServiceOutcome
  randomNeighborOk : Bool
  neighborChoice : Nat

/-- The neighbor-query loop of `PGOAgentROS::update`
(`src/PGOAgentROS.cpp:66-72`): each neighbor is queried via
`requestPublicPosesFromAgent`; success applies the returned poses, failure
logs a warning; the out-of-bounds `none` propagates. -/
def neighborQueryLoop (pubIdx : Nat → List Nat) (svc : Nat → ServiceOutcome) :
    List Nat → Option (List TraceEvent)
  | [] => some []
  | n :: rest =>
    match requestPublicPosesFromAgent (pubIdx n) (svc n) with
    | none => none
    | some (ok, ups) =>
      match neighborQueryLoop pubIdx svc rest with
      | none => none
      | some evs =>
        some (TraceEvent.queryNeighborPoses n ::
          (if ok then TraceEvent.applyNeighborUpdates n ups
           else TraceEvent.warnNeighborUnavailable n) :: evs)

/-- Embedding of `PGOAgentROS::update` (`src/PGOAgentROS.cpp:62-97`) as the
trace of its observable effects, in program order: neighbor pose queries,
one `optimize()` call with its success/failure log, the `publishTrajectory`
call with its failure log, the `getRandomNeighbor` failure log, and the
final broadcast of the next `UPDATE` command (always published, with
whatever `neighborID` holds). -/
def updateTrace (selfId : Nat) (env : UpdateEnv) : Option (List TraceEvent) :=
  match neighborQueryLoop env.publicPoseIndices env.poseService
      env.neighbors with
  | none => none
  | some loopEvs =>
    match publishTrajectory selfId env.anchorService with
    | none => none
    | some trajOk =>
      some (loopEvs ++ [TraceEvent.callOptimize] ++
        (if env.optimizeSuccess then [TraceEvent.infoObjectiveDecrease]
         else [TraceEvent.warnOptimizeSkipped]) ++
        [TraceEvent.callPublishTrajectory] ++
        (if trajOk then [] else [TraceEvent.errPublishTrajectory]) ++
        (if env.randomNeighborOk then [] else [TraceEvent.errNoNeighbor]) ++
        [TraceEvent.publishCommand .UPDATE env.neighborChoice])

/-- Embedding of `PGOAgentROS::commandCallback`
(`src/PGOAgentROS.cpp:176-196`): INITIALIZE and TERMINATE only log
"not implemented"; UPDATE runs `update()` exactly when `executing_robot`
equals this agent's ID; anything else logs an invalid-command error. -/
def commandCallbackTrace (selfId : Nat) (msg : CommandMsg) (env : UpdateEnv) :
    Option (List TraceEvent) :=
  match msg.command with
  | .INITIALIZE => some [TraceEvent.errInitializeNotImplemented]
  | .TERMINATE => some [TraceEvent.errTerminateNotImplemented]
  | .UPDATE =>
    if msg.executing_robot = selfId then updateTrace selfId env
    else some []
  | .INVALID => some [TraceEvent.errInvalidCommand]

theorem neighborQueryLoop_events (pubIdx : Nat → List Nat)
    (svc : Nat → ServiceOutcome) :
    ∀ (ns : List Nat) (evs : List TraceEvent),
      neighborQueryLoop pubIdx svc ns = some evs →
      TraceEvent.callOptimize ∉ evs ∧ TraceEvent.publishStatus ∉ evs ∧
        TraceEvent.publishPublicPoses ∉ evs ∧
        ∀ n ∈ ns, TraceEvent.queryNeighborPoses n ∈ evs := by
  intro ns
  induction ns with
  | nil =>
    intro evs h
    simp only [neighborQueryLoop, Option.some.injEq] at h
    subst h
    simp
  | cons n rest ih =>
    intro evs h
    simp only [neighborQueryLoop] at h
    cases hreq : requestPublicPosesFromAgent (pubIdx n) (svc n) with
    | none => rw [hreq] at h; exact absurd h (by simp)
    | some pair =>
      rw [hreq] at h
      obtain ⟨ok, ups⟩ := pair
      cases hrec : neighborQueryLoop pubIdx svc rest with
      | none => rw [hrec] at h; exact absurd h (by simp)
      | some evsRest =>
        rw [hrec] at h
        simp only [Option.some.injEq] at h
        subst h
        obtain ⟨h1, h2, h3, h4⟩ := ih evsRest hrec
        refine ⟨?_, ?_, ?_, ?_⟩
        · cases ok <;> simp [h1]
        · cases ok <;> simp [h2]
        · cases ok <;> simp [h3]
        · intro n' hn'
          rcases List.mem_cons.mp hn' with h0 | h0
          · subst h0; simp
          · simp [h4 n' h0]

/-- C6 counterexample: a concrete addressed UPDATE (agent 1, one neighbor,
all services succeeding) produces exactly this trace — it contains no
public-pose publication and no STATUS heartbeat, refuting that part of the
claim (the code publishes only the trajectory and the next UPDATE command;
public poses are served on demand via the `query_poses` service). -/
theorem C6_counterexample :
    commandCallbackTrace 1 ⟨.UPDATE, 1⟩
        ⟨[0], fun _ => [0], fun _ => .replied [⟨0, 0, 0, 0⟩], true,
          .replied [⟨0, 0, 0, 0⟩], true, 0⟩ =
      some [.queryNeighborPoses 0, .applyNeighborUpdates 0 [⟨0, 0, 0, 0⟩],
        .callOptimize, .infoObjectiveDecrease, .callPublishTrajectory,
        .publishCommand .UPDATE 0] ∧
    TraceEvent.publishStatus ∉
      ([.queryNeighborPoses 0, .applyNeighborUpdates 0 [⟨0, 0, 0, 0⟩],
        .callOptimize, .infoObjectiveDecrease, .callPublishTrajectory,
        .publishCommand .UPDATE 0] : List TraceEvent) ∧
    TraceEvent.publishPublicPoses ∉
      ([.queryNeighborPoses 0, .applyNeighborUpdates 0 [⟨0, 0, 0, 0⟩],
        .callOptimize, .infoObjectiveDecrease, .callPublishTrajectory,
        .publishCommand .UPDATE 0] : List TraceEvent) := by
  refine ⟨rfl, by decide, by decide⟩

/-- C6 (amended): `update` runs iff the UPDATE command's `executing_robot`
equals this agent's ID; the addressed robot queries each neighbor's public
poses (refreshing the neighbor-pose cache), invokes the optimizer exactly
once, calls `publishTrajectory` and broadcasts the next UPDATE command, but
publishes neither its public poses nor a STATUS heartbeat; a robot not
addressed performs nothing. -/
theorem C6_update_dispatch_amended (selfId : Nat) (msg : CommandMsg)
    (env : UpdateEnv) (hcmd : msg.command = .UPDATE) :
    (msg.executing_robot ≠ selfId →
      commandCallbackTrace selfId msg env = some []) ∧
    (msg.executing_robot = selfId →
      commandCallbackTrace selfId msg env = updateTrace selfId env ∧
      ∀ tr, updateTrace selfId env = some tr →
        tr.count TraceEvent.callOptimize = 1 ∧
        (∀ n ∈ env.neighbors, TraceEvent.queryNeighborPoses n ∈ tr) ∧
        TraceEvent.callPublishTrajectory ∈ tr ∧
        TraceEvent.publishCommand .UPDATE env.neighborChoice ∈ tr ∧
        TraceEvent.publishStatus ∉ tr ∧
        TraceEvent.publishPublicPoses ∉ tr) := by
  constructor
  · intro h
    simp [commandCallbackTrace, hcmd, h]
  · intro h
    refine ⟨by simp [commandCallbackTrace, hcmd, h], ?_⟩
    intro tr htr
    simp only [updateTrace] at htr
    cases hloop : neighborQueryLoop env.publicPoseIndices env.poseService
        env.neighbors with
    | none => rw [hloop] at htr; exact absurd htr (by simp)
    | some loopEvs =>
      rw [hloop] at htr
      cases htraj : publishTrajectory selfId env.anchorService with
      | none => rw [htraj] at htr; exact absurd htr (by simp)
      | some trajOk =>
        rw [htraj] at htr
        simp only [Option.some.injEq] at htr
        subst htr
        obtain ⟨h1, h2, h3, h4⟩ :=
          neighborQueryLoop_events env.publicPoseIndices env.poseService
            env.neighbors loopEvs hloop
        refine ⟨?_, ?_, ?_, ?_, ?_, ?_⟩
        · rw [List.count_append, List.count_append, List.count_append,
            List.count_append, List.count_append, List.count_append,
            List.count_eq_zero.mpr h1]
          cases env.optimizeSuccess <;> cases trajOk <;>
            cases env.randomNeighborOk <;> simp
        · intro n hn
          simp [List.mem_append, h4 n hn]
        · simp [List.mem_append]
        · simp [List.mem_append]
        · simp only [List.mem_append, not_or]
          refine ⟨⟨⟨⟨⟨⟨h2, by simp⟩, ?_⟩, by simp⟩, ?_⟩, ?_⟩, by simp⟩
          · cases env.optimizeSuccess <;> simp
          · cases trajOk <;> simp
          · cases env.randomNeighborOk <;> simp
        · simp only [List.mem_append, not_or]
          refine ⟨⟨⟨⟨⟨⟨h3, by simp⟩, ?_⟩, by simp⟩, ?_⟩, ?_⟩, by simp⟩
          · cases env.optimizeSuccess <;> simp
          · cases trajOk <;> simp
          · cases env.randomNeighborOk <;> simp

theorem C6_update_dispatch_amended_witness :
    commandCallbackTrace 1 ⟨.UPDATE, 2⟩
        ⟨[], fun _ => [], fun _ => .unavailable, true, .unavailable, true,
          0⟩ =
      some [] :=
  (C6_update_dispatch_amended 1 ⟨.UPDATE, 2⟩
      ⟨[], fun _ => [], fun _ => .unavailable, true, .unavailable, true, 0⟩
      rfl).1 (by decide)

/-- C7: when the local optimization step reports non-success, `update` logs
the failure and the round proceeds — the trajectory publication is still
attempted and the next UPDATE command is still broadcast. -/
theorem C7_optimizer_failure_nonfatal (selfId : Nat) (env : UpdateEnv)
    (tr : List TraceEvent) (hfail : env.optimizeSuccess = false)
    (h : updateTrace selfId env = some tr) :
    TraceEvent.warnOptimizeSkipped ∈ tr ∧
    TraceEvent.callPublishTrajectory ∈ tr ∧
    TraceEvent.publishCommand .UPDATE env.neighborChoice ∈ tr := by
  simp only [updateTrace] at h
  cases hloop : neighborQueryLoop env.publicPoseIndices env.poseService
      env.neighbors with
  | none => rw [hloop] at h; exact absurd h (by simp)
  | some loopEvs =>
    rw [hloop] at h
    cases htraj : publishTrajectory selfId env.anchorService with
    | none => rw [htraj] at h; exact absurd h (by simp)
    | some trajOk =>
      rw [htraj] at h
      simp only [Option.some.injEq] at h
      subst h
      simp [List.mem_append, hfail]

theorem C7_optimizer_failure_nonfatal_witness :
    TraceEvent.warnOptimizeSkipped ∈
      ([.callOptimize, .warnOptimizeSkipped, .callPublishTrajectory,
        .publishCommand .UPDATE 2] : List TraceEvent) ∧
    TraceEvent.callPublishTrajectory ∈
      ([.callOptimize, .warnOptimizeSkipped, .callPublishTrajectory,
        .publishCommand .UPDATE 2] : List TraceEvent) ∧
    TraceEvent.publishCommand .UPDATE 2 ∈
      ([.callOptimize, .warnOptimizeSkipped, .callPublishTrajectory,
        .publishCommand .UPDATE 2] : List TraceEvent) :=
  C7_optimizer_failure_nonfatal 0
    ⟨[], fun _ => [], fun _ => .unavailable, false, .unavailable, true, 2⟩
    [.callOptimize, .warnOptimizeSkipped, .callPublishTrajectory,
      .publishCommand .UPDATE 2] rfl rfl

/-- C9: the TERMINATE branch of `commandCallback` is an unimplemented stub —
it only logs "TERMINATE not implemented!" and changes nothing; in particular
it does not halt scheduling: an UPDATE addressed to this agent afterwards
still runs a full `update` round exactly as without the TERMINATE. -/
theorem C9_terminate_unimplemented (selfId e : Nat) (env : UpdateEnv) :
    commandCallbackTrace selfId ⟨.TERMINATE, e⟩ env =
      some [TraceEvent.errTerminateNotImplemented] ∧
    commandCallbackTrace selfId ⟨.UPDATE, selfId⟩ env =
      updateTrace selfId env :=
  ⟨rfl, by simp [commandCallbackTrace]⟩

/-- Observable constructor effects of the lifting-matrix fetch
(`src/PGOAgentROS.cpp:42-57`). -/
inductive CtorEvent where
  | waitForLiftingService : Nat → CtorEvent
  | errServiceMissing : CtorEvent
  | errCallFailed : CtorEvent
  | rosShutdown : CtorEvent
  | callLiftingService : CtorEvent
  | setLiftingMatrix : CtorEvent
  deriving DecidableEq, Repr

/-- Embedding of the lifting-matrix fetch in the `PGOAgentROS` constructor
(`src/PGOAgentROS.cpp:42-57`): robot 0 skips it; any other robot waits for
robot 0's service with a 5-second timeout, calls `ros::shutdown` (after an
error log) when the wait or the call fails, and then unconditionally calls
`setLiftingMatrix` once.  `waitOk`/`callOk` are the results of
`waitForService` and `ros::service::call`. -/
def constructorLiftingFetch (id : Nat) (waitOk callOk : Bool) :
    List CtorEvent :=
  if id = 0 then []
  else
    [CtorEvent.waitForLiftingService 5] ++
      (if waitOk then []
       else [CtorEvent.errServiceMissing, CtorEvent.rosShutdown]) ++
      [CtorEvent.callLiftingService] ++
      (if callOk then []
       else [CtorEvent.errCallFailed, CtorEvent.rosShutdown]) ++
      [CtorEvent.setLiftingMatrix]

/-- C8: at construction every non-Leader robot waits for robot 0's
lifting-matrix service with an explicit 5-second timeout; a missing service
or a failed call triggers `ros::shutdown`; when both succeed no shutdown is
requested and the lifting matrix is set exactly once; robot 0 performs no
fetch. -/
theorem C8_lifting_matrix_fetch (id : Nat) (waitOk callOk : Bool)
    (hid : id ≠ 0) :
    CtorEvent.waitForLiftingService 5 ∈
      constructorLiftingFetch id waitOk callOk ∧
    (waitOk = false →
      CtorEvent.rosShutdown ∈ constructorLiftingFetch id waitOk callOk) ∧
    (callOk = false →
      CtorEvent.rosShutdown ∈ constructorLiftingFetch id waitOk callOk) ∧
    (waitOk = true → callOk = true →
      CtorEvent.rosShutdown ∉ constructorLiftingFetch id waitOk callOk ∧
      (constructorLiftingFetch id waitOk callOk).count
        CtorEvent.setLiftingMatrix = 1) ∧
    constructorLiftingFetch 0 waitOk callOk = [] := by
  refine ⟨?_, ?_, ?_, ?_, by simp [constructorLiftingFetch]⟩ <;>
    simp only [constructorLiftingFetch, if_neg hid] <;>
    cases waitOk <;> cases callOk <;> simp

theorem C8_lifting_matrix_fetch_witness :
    CtorEvent.rosShutdown ∉ constructorLiftingFetch 1 true true ∧
    (constructorLiftingFetch 1 true true).count CtorEvent.setLiftingMatrix =
      1 :=
  (C8_lifting_matrix_fetch 1 true true (by decide)).2.2.2.1 rfl rfl

/-- Minimum of a list of iteration counters (0 for the empty list). -/
def listMinD : List Nat → Nat
  | [] => 0
  | x :: xs => xs.foldl min x

theorem foldl_min_le (xs : List Nat) (a : Nat) :
    xs.foldl min a ≤ a ∧ ∀ x ∈ xs, xs.foldl min a ≤ x := by
  induction xs generalizing a with
  | nil => simp
  | cons y ys ih =>
    simp only [List.foldl_cons]
    obtain ⟨h1, h2⟩ := ih (min a y)
    refine ⟨le_trans h1 (min_le_left a y), ?_⟩
    intro x hx
    rcases List.mem_cons.mp hx with h | h
    · rw [h]; exact le_trans h1 (min_le_right a y)
    · exact h2 x h

theorem listMinD_le (l : List Nat) (x : Nat) (hx : x ∈ l) : listMinD l ≤ x := by
  cases l with
  | nil => simp at hx
  | cons y ys =>
    simp only [listMinD]
    rcases List.mem_cons.mp hx with h | h
    · rw [h]; exact (foldl_min_le ys y).1
    · exact (foldl_min_le ys y).2 x h

theorem get_mem_eraseIdx :
    ∀ (s : List Nat) (k j : Nat) (hj : j < s.length), j ≠ k →
      s.get ⟨j, hj⟩ ∈ s.eraseIdx k := by
  intro s
  induction s with
  | nil => intro k j hj _; simp at hj
  | cons x xs ih =>
    intro k j hj hne
    cases k with
    | zero =>
      cases j with
      | zero => exact absurd rfl hne
      | succ j' =>
        simp only [List.eraseIdx, List.get_cons_succ]
        exact List.get_mem xs _ _
    | succ k' =>
      cases j with
      | zero => simp [List.eraseIdx]
      | succ j' =>
        simp only [List.eraseIdx, List.get_cons_succ, List.mem_cons]
        exact Or.inr (ih k' j' (Nat.lt_of_succ_lt_succ hj)
          (fun h => hne (congrArg Nat.succ h)))

/-- Modelled from the spec: the Synchronization Barrier of the richer
coordination variant — its data (`mTeamIterReceived`, `maxDelayedIterations`)
is declared in `include/dpgo_ros/PGOAgentROS.h` but its implementation
(`runOnce` and friends) is not under `src/`.  `peerMin s i` is
"min(iterReceived over active peers)": the minimum iteration counter over
the robots other than `i`. -/
def peerMin (s : List Nat) (i : Nat) : Nat :=
  listMinD (s.eraseIdx i)

theorem peerMin_le (s : List Nat) (k m : Nat) (hm : m < s.length)
    (hne : m ≠ k) : peerMin s k ≤ s[m] :=
  listMinD_le _ _ (get_mem_eraseIdx s k m hm hne)

/-- Modelled from the spec: one local update under the Synchronization
Barrier.  A robot `i` may increment its iteration counter only when its lag
`own iteration − min(iterReceived over active peers)` is strictly below
`maxDelayedIterations` `D`; a robot whose lag is at least `D` defers the
update. -/
inductive SyncStep (D : Nat) : List Nat → List Nat → Prop where
  | update {s : List Nat} (i : Nat) (h : i < s.length)
      (hgate : s[i] - peerMin s i < D) :
      SyncStep D s (s.set i (s[i] + 1))

/-- Modelled from the spec: iteration-counter states reachable from the
just-initialized state (all counters 0) by gated local updates. -/
inductive SyncReachable (D n : Nat) : List Nat → Prop where
  | init : SyncReachable D n (List.replicate n 0)
  | step {s t : List Nat} : SyncReachable D n s → SyncStep D s t →
      SyncReachable D n t

/-- C2: in every reachable state of the Synchronization Barrier, no robot's
iteration counter leads any other robot's by more than
`maxDelayedIterations`: the deferral gate preserves the pairwise staleness
bound |iteration(A) − iteration(B)| ≤ D from the all-zero initial state. -/
theorem C2_staleness_bound (D n : Nat) (s : List Nat)
    (hs : SyncReachable D n s) :
    ∀ (i j : Nat) (hi : i < s.length) (hj : j < s.length),
      s[i] ≤ s[j] + D := by
  induction hs with
  | init =>
    intro i j hi hj
    simp [List.getElem_replicate]
  | step hr hstep ih =>
    rename_i sPrev tPrev
    cases hstep with
    | update k hk hgate =>
      intro i j hi2 hj2
      have hi : i < sPrev.length := by simpa using hi2
      have hj : j < sPrev.length := by simpa using hj2
      have hv1 : sPrev[k] + 1 ≤ peerMin sPrev k + D := by omega
      have hik := ih i k hi hk
      have hij := ih i j hi hj
      rw [List.getElem_set, List.getElem_set]
      split_ifs with h1 h2 h3
      · omega
      · have := peerMin_le sPrev k j hj (fun h => h2 h.symm)
        omega
      · omega
      · exact hij

theorem C2_staleness_bound_witness :
    ([1, 0] : List Nat)[0] ≤ ([1, 0] : List Nat)[1] + 3 := by
  have h0 : SyncReachable 3 2 [0, 0] := SyncReachable.init
  have hstep : SyncStep 3 [0, 0] [1, 0] :=
    SyncStep.update 0 (by decide) (by decide)
  exact C2_staleness_bound 3 2 [1, 0] (SyncReachable.step h0 hstep)
    0 1 (by decide) (by decide)

/-- A Public-State Cache entry: the iteration stamp and the cached pose
value (payload abstracted to `Nat`). -/
structure CachedPose where
  stamp : Nat
  value : Nat
  deriving DecidableEq, Repr

/-- Modelled from the spec: lookup in the Public-State Cache, keyed by
(RobotID, PoseID).  The cache of the richer coordination variant
(`publicPosesCallback` and the stamp comparison) is declared against
`include/dpgo_ros/PGOAgentROS.h` but its implementation is not under
`src/`. -/
def cacheLookup (c : List ((Nat × Nat) × CachedPose)) (k : Nat × Nat) :
    Option CachedPose :=
  (c.find? fun e => decide (e.1 = k)).map Prod.snd

/-- Modelled from the spec: a Public-State Cache write is last-writer-wins
keyed by (PoseID, iteration stamp): an incoming pose whose stamp is older
than or equal to the cached stamp for the same (RobotID, PoseID) is dropped;
a strictly newer stamp replaces the entry; an unknown key is inserted. -/
def cacheWrite (c : List ((Nat × Nat) × CachedPose)) (k : Nat × Nat)
    (stamp value : Nat) : List ((Nat × Nat) × CachedPose) :=
  match cacheLookup c k with
  | some entry =>
    if stamp ≤ entry.stamp then c
    else c.map fun e => if e.1 = k then (k, ⟨stamp, value⟩) else e
  | none => (k, ⟨stamp, value⟩) :: c

theorem cacheLookup_overwrite (c : List ((Nat × Nat) × CachedPose))
    (k : Nat × Nat) (stamp value : Nat) :
    cacheLookup (c.map fun e => if e.1 = k then (k, ⟨stamp, value⟩) else e)
        k =
      (cacheLookup c k).map fun _ => ⟨stamp, value⟩ := by
  induction c with
  | nil => rfl
  | cons e c ih =>
    by_cases he : e.1 = k
    · simp only [List.map_cons, if_pos he, cacheLookup]
      rw [List.find?_cons_of_pos _ (by simp),
        List.find?_cons_of_pos _ (by simp [he])]
      simp
    · simp only [List.map_cons, if_neg he, cacheLookup]
      rw [List.find?_cons_of_neg _ (by simp [he]),
        List.find?_cons_of_neg _ (by simp [he])]
      simpa [cacheLookup] using ih

theorem cacheLookup_insert (c : List ((Nat × Nat) × CachedPose))
    (k : Nat × Nat) (stamp value : Nat) :
    cacheLookup ((k, ⟨stamp, value⟩) :: c) k = some ⟨stamp, value⟩ := by
  simp only [cacheLookup]
  rw [List.find?_cons_of_pos _ (by simp)]
  rfl

/-- C3: Public-State Cache writes are last-writer-wins keyed by
(PoseID, iteration stamp): a write whose stamp is older than or equal to the
cached stamp for the same key leaves the cache unchanged, and applying the
same PublicPose twice (same stamp and value) yields the same cache state as
applying it once. -/
theorem C3_cache_write_idempotent (c : List ((Nat × Nat) × CachedPose))
    (k : Nat × Nat) (stamp value : Nat) (entry : CachedPose) :
    (cacheLookup c k = some entry → stamp ≤ entry.stamp →
      cacheWrite c k stamp value = c) ∧
    cacheWrite (cacheWrite c k stamp value) k stamp value =
      cacheWrite c k stamp value := by
  constructor
  · intro hl hle
    simp [cacheWrite, hl, hle]
  · cases hl : cacheLookup c k with
    | none =>
      simp only [cacheWrite, hl]
      rw [show cacheLookup ((k, ⟨stamp, value⟩) :: c) k =
          some ⟨stamp, value⟩ from cacheLookup_insert c k stamp value]
      simp
    | some cached =>
      by_cases hle : stamp ≤ cached.stamp
      · simp [cacheWrite, hl, hle]
      · simp only [cacheWrite, hl, if_neg hle]
        rw [show cacheLookup
            (c.map fun e => if e.1 = k then (k, ⟨stamp, value⟩) else e) k =
            some ⟨stamp, value⟩ from by
          rw [cacheLookup_overwrite, hl]; rfl]
        simp

theorem C3_cache_write_idempotent_witness :
    cacheWrite [((1, 5), ⟨10, 42⟩)] (1, 5) 8 99 = [((1, 5), ⟨10, 42⟩)] ∧
    cacheWrite (cacheWrite [((1, 5), ⟨10, 42⟩)] (1, 5) 12 99) (1, 5) 12 99 =
      cacheWrite [((1, 5), ⟨10, 42⟩)] (1, 5) 12 99 :=
  ⟨(C3_cache_write_idempotent [((1, 5), ⟨10, 42⟩)] (1, 5) 8 99
      ⟨10, 42⟩).1 (by decide) (by decide),
    (C3_cache_write_idempotent [((1, 5), ⟨10, 42⟩)] (1, 5) 12 99
      ⟨10, 42⟩).2⟩

end DpgoRos
